import Mathlib

/-!
Verification development for the KrishiMitra repository.

The only ranking code present in the tree is the local heuristic
recommender `computeIrrigationRanked` in the IrrigationWeather page
(TypeScript).  It is embedded below over exact rationals (`Rat` stands
for the JS `number` values that appear; all constants are decimal
literals that the embedding keeps exact).

The seed-variety recommender (`seedrec` package: scoring.py,
recommend.py, traits.py) is documented in README_SEED_RECOMMENDER.md and
README_FASTAPI.md but its code is not in the tree; the components it
describes (ComponentScorer, RiskAdjuster, YieldBlender, weights
validation) are modelled from the spec, each clearly marked.
-/

namespace KrishiMitra

/-- Soil texture union type from the IrrigationWeather page:
`"sand" | "sandy_loam" | "loam" | "clay_loam" | "clay" | "silt_loam"`. -/
inductive SoilTexture where
  | sand
  | sandy_loam
  | loam
  | clay_loam
  | clay
  | silt_loam
deriving DecidableEq, Repr

/-- Form type `IrrigationForm` from the IrrigationWeather page.  Optional pump
metadata fields are `Option`s (TS `?:`). -/
structure IrrigationForm where
  state : String
  district : String
  year : Int
  crop : String
  soilPh : Rat
  soilTexture : SoilTexture
  organicCarbon : Rat
  soilMoisturePct : Rat
  temperatureC : Rat
  humidityPct : Rat
  rainTomorrowMm : Rat
  rainDayAfterMm : Rat
  powerKW : Option Rat
  tariffPerKwh : Option Rat
  hoursPerIrrigation : Option Rat
deriving DecidableEq, Repr

/-- Record `RankedIrrigation` from the IrrigationWeather page; the
optional TS fields are `Option`s. -/
structure RankedIrrigation where
  method : String
  score : Rat
  reason : Option String
  est_water_mm : Option Rat
  energy_kwh : Option Rat
  cost_estimate : Option Rat
deriving DecidableEq, Repr

/-- JS `Math.round`: round half toward positive infinity. -/
def jsRound (x : Rat) : Rat :=
  ((⌊x + 1 / 2⌋ : Int) : Rat)

/-- Dryness deficit: `deficit = Math.max(0, 100 - moisture) / 100`. -/
def deficit (f : IrrigationForm) : Rat :=
  max 0 (100 - f.soilMoisturePct) / 100

/-- Forecast sum `rainNext48 = (f.rainTomorrowMm || 0) + (f.rainDayAfterMm || 0)`;
on rationals `x || 0` is the identity (`0 || 0` is `0`). -/
def rainNext48 (f : IrrigationForm) : Rat :=
  f.rainTomorrowMm + f.rainDayAfterMm

/-- Texture adjustments of the non-wait branch, as
(drip, sprinkler, surface) increments of the `switch` statement. -/
def textureAdj : SoilTexture → Rat × Rat × Rat
  | .sand => (0.1, 0.05, 0)
  | .sandy_loam => (0.1, 0.05, 0)
  | .clay => (0, 0.03, 0.07)
  | .clay_loam => (0, 0.03, 0.07)
  | _ => (0, 0.03, 0)

/-- Drip score of the non-wait branch:
base `0.55 + 0.35 * deficit`, texture bump, `+0.05` when
`temperatureC >= 34`, `-0.03` when `rainNext48 > 10`. -/
def dripScore (f : IrrigationForm) : Rat :=
  0.55 + 0.35 * deficit f + (textureAdj f.soilTexture).1
    + (if f.temperatureC ≥ 34 then 0.05 else 0)
    + (if rainNext48 f > 10 then -0.03 else 0)

/-- Sprinkler score of the non-wait branch:
base `0.5 + 0.3 * deficit`, texture bump, `+0.03` when
`humidityPct <= 35`, `-0.03` when `rainNext48 > 10`. -/
def sprinklerScore (f : IrrigationForm) : Rat :=
  0.5 + 0.3 * deficit f + (textureAdj f.soilTexture).2.1
    + (if f.humidityPct ≤ 35 then 0.03 else 0)
    + (if rainNext48 f > 10 then -0.03 else 0)

/-- Surface score of the non-wait branch:
base `0.45 + 0.25 * deficit`, texture bump, `-0.03` when
`rainNext48 > 10`. -/
def surfaceScore (f : IrrigationForm) : Rat :=
  0.45 + 0.25 * deficit f + (textureAdj f.soilTexture).2.2
    + (if rainNext48 f > 10 then -0.03 else 0)

/-- Estimated water need `estWater = Math.max(10, Math.round(deficit * 50))`. -/
def estWater (f : IrrigationForm) : Rat :=
  max 10 (jsRound (deficit f * 50))

/-- Irrigation hours `hours = f.hoursPerIrrigation ?? Math.max(1, Math.round(estWater / 25))`. -/
def irrigationHours (f : IrrigationForm) : Rat :=
  f.hoursPerIrrigation.getD (max 1 (jsRound (estWater f / 25)))

/-- Energy `energy = f.powerKW ? f.powerKW * hours : undefined`; a JS number is
falsy exactly when it is 0 (NaN is not modelled). -/
def energyKwh (f : IrrigationForm) : Option Rat :=
  match f.powerKW with
  | some p => if p = 0 then none else some (p * irrigationHours f)
  | none => none

/-- Cost `cost = energy && f.tariffPerKwh ? energy * f.tariffPerKwh : undefined`. -/
def costEstimate (f : IrrigationForm) : Option Rat :=
  match energyKwh f, f.tariffPerKwh with
  | some e, some t => if e = 0 ∨ t = 0 then none else some (e * t)
  | _, _ => none

/-- Stable descending insertion by `score`: an element is placed before
the first strictly smaller score, so equal scores keep their original
relative order — the behaviour of the (stable, ES2019) JS
`sort((a, b) => b.score - a.score)`. -/
def insertDesc (x : RankedIrrigation) : List RankedIrrigation → List RankedIrrigation
  | [] => [x]
  | y :: ys => if x.score ≥ y.score then x :: y :: ys else y :: insertDesc x ys

/-- Stable sort descending by `score` (insertion sort). -/
def sortDesc : List RankedIrrigation → List RankedIrrigation
  | [] => []
  | x :: xs => insertDesc x (sortDesc xs)

/-- Fixed per-method reason strings attached by the final `.map` of the
non-wait branch. -/
def methodReason (m : String) : String :=
  if m = "Drip" then
    "Efficient under current dryness; reduces evaporation and percolation losses."
  else if m = "Sprinkler" then
    "Good uniformity; helpful when humidity is low and temperature is moderate-high."
  else
    "Simple method; acceptable on heavier soils at moderate deficits."

/-- The local heuristic recommender `computeIrrigationRanked` of the
IrrigationWeather page, translated statement by statement. -/
def computeIrrigationRanked (f : IrrigationForm) : List RankedIrrigation :=
  if f.soilMoisturePct ≥ 70 ∨ rainNext48 f ≥ 25 then
    [ { method := "Wait", score := 0.75,
        reason := some (if f.soilMoisturePct ≥ 70 then
          "Soil moisture is already adequate."
        else
          "Significant rainfall forecasted in next 48 hours."),
        est_water_mm := some 0, energy_kwh := some 0, cost_estimate := some 0 },
      { method := "Drip", score := 0.45,
        reason := some "If needed, apply minimal spot irrigation.",
        est_water_mm := none, energy_kwh := none, cost_estimate := none },
      { method := "Sprinkler", score := 0.40,
        reason := some "Hold unless conditions dry out further.",
        est_water_mm := none, energy_kwh := none, cost_estimate := none } ]
  else
    (sortDesc
      (([ { method := "Drip", score := dripScore f, reason := none,
            est_water_mm := none, energy_kwh := none, cost_estimate := none },
          { method := "Sprinkler", score := sprinklerScore f, reason := none,
            est_water_mm := none, energy_kwh := none, cost_estimate := none },
          { method := "Surface", score := surfaceScore f, reason := none,
            est_water_mm := none, energy_kwh := none, cost_estimate := none } ] :
          List RankedIrrigation).map
        (fun r => { r with
          est_water_mm := some (estWater f),
          energy_kwh := energyKwh f,
          cost_estimate := costEstimate f }))).map
      (fun r => { r with reason := some (methodReason r.method) })

/-! ### Seed-variety recommender, modelled from the spec

The `seedrec` package (scoring.py, recommend.py, traits.py) is not in
the tree — only README_SEED_RECOMMENDER.md and README_FASTAPI.md
describe it.  The definitions below are modelled from the spec's words
(§3, §4.2, §4.3, §4.5, §7 and the READMEs). -/

/-- Modelled from the spec: the `VarietyTrait` record (§3); the seedrec
traits.py code is not in the tree. -/
structure VarietyTrait where
  crop : String
  variety : String
  pH_min : Rat
  pH_max : Rat
  textures_allowed : List String
  maturity_days : Int
  zone_codes : List String
  heat_tol : Bool
  flood_tol : Bool
  drought_tol : Bool
  notes : String
deriving DecidableEq, Repr

/-- Modelled from the spec: the `TolerancesConfig` record (§3), defaults
`pH_falloff = 0.5`, `maturity_window = 60`, `zone_penalty = 0.5`. -/
structure TolerancesConfig where
  pH_falloff : Rat
  maturity_window : Rat
  zone_penalty : Rat
deriving DecidableEq, Repr

/-- Modelled from the spec: the `WeightsConfig` record (§3). -/
structure WeightsConfig where
  pH : Rat
  texture : Rat
  maturity : Rat
  zone : Rat
deriving DecidableEq, Repr

/-- Modelled from the spec: risk flags of the `QueryContext` (§3). -/
structure RiskFlags where
  heat : Bool
  flood : Bool
  drought : Bool
deriving DecidableEq, Repr

/-- Clamp to the unit interval. -/
def clamp01 (x : Rat) : Rat :=
  min 1 (max 0 x)

/-- Modelled from the spec: ComponentScorer pH sub-score (§4.2) —
1.0 if `soil_ph ∈ [pH_min, pH_max]`, otherwise linear falloff
`max(0, 1 - d / pH_falloff)` where `d` is the distance beyond the
nearest range boundary; scoring.py is not in the tree. -/
def phScore (t : VarietyTrait) (soil_ph : Rat) (tol : TolerancesConfig) : Rat :=
  if t.pH_min ≤ soil_ph ∧ soil_ph ≤ t.pH_max then 1
  else if soil_ph < t.pH_min then
    max 0 (1 - (t.pH_min - soil_ph) / tol.pH_falloff)
  else
    max 0 (1 - (soil_ph - t.pH_max) / tol.pH_falloff)

/-- Distance from `soil_ph` to the nearest boundary of
`[pH_min, pH_max]`, 0 inside the range (the `d` of the spec's pH rule). -/
def phDist (t : VarietyTrait) (soil_ph : Rat) : Rat :=
  max 0 (max (t.pH_min - soil_ph) (soil_ph - t.pH_max))

/-- Modelled from the spec: one RiskAdjuster multiplier (§4.3) — 1.0
when the risk flag is off, 1.05 when on and tolerant, 0.95 when on and
not tolerant; scoring.py is not in the tree. -/
def riskMultiplier (flag : Bool) (tolerant : Bool) : Rat :=
  if flag then (if tolerant then 1.05 else 0.95) else 1

/-- Modelled from the spec: RiskAdjuster (§4.3) — the three multipliers
compose multiplicatively and the result is clamped to [0,1]. -/
def adjustRisk (suitability : Rat) (t : VarietyTrait) (r : RiskFlags) : Rat :=
  clamp01 (suitability
    * riskMultiplier r.heat t.heat_tol
    * riskMultiplier r.flood t.flood_tol
    * riskMultiplier r.drought t.drought_tol)

/-- The four sub-scores of one candidate, each expected in [0,1]. -/
structure SubScores where
  pH : Rat
  texture : Rat
  maturity : Rat
  zone : Rat
deriving DecidableEq, Repr

/-- Sum of the four weight components. -/
def weightsSum (w : WeightsConfig) : Rat :=
  w.pH + w.texture + w.maturity + w.zone

/-- Modelled from the spec: the weighted sum `rawSuitability = Σ weight_i × score_i`
(§4.4 step 1); recommend.py is not in the tree. -/
def rawSuitability (w : WeightsConfig) (s : SubScores) : Rat :=
  w.pH * s.pH + w.texture * s.texture + w.maturity * s.maturity + w.zone * s.zone

/-- Modelled from the spec: the `ConfigError` taxonomy entry (§7) — weights or
hybrid-weights not summing to 1.0. -/
inductive ConfigError where
  | weightsSumNotOne (observed : Rat) : ConfigError
deriving DecidableEq, Repr

/-- Modelled from the spec: weights validation (§3, §7) — the four
components must sum to 1.0 within 1e-6, a violation is a fatal
`ConfigError` and the weights are never renormalized (the valid
configuration is returned unchanged); the config-loading code is not in
the tree. -/
def validateWeights (w : WeightsConfig) : Except ConfigError WeightsConfig :=
  if |weightsSum w - 1| ≤ 1e-6 then .ok w
  else .error (.weightsSumNotOne (weightsSum w))

/-- Modelled from the spec: hybrid blending weights (§4.5), default
`yield_weight = 0.6`, `suitability_weight = 0.4`. -/
structure HybridWeights where
  yield_weight : Rat
  suitability_weight : Rat
deriving DecidableEq, Repr

/-- Spec defaults for `HybridWeights`. -/
def defaultHybridWeights : HybridWeights :=
  { yield_weight := 0.6, suitability_weight := 0.4 }

/-- Modelled from the spec: hybrid-weights validation (§6) — `must sum
to 1.0, validated like WeightsConfig`. -/
def validateHybridWeights (hw : HybridWeights) : Except ConfigError HybridWeights :=
  if |hw.yield_weight + hw.suitability_weight - 1| ≤ 1e-6 then .ok hw
  else .error (.weightsSumNotOne (hw.yield_weight + hw.suitability_weight))

/-- Minimum of a prediction set (head-seeded fold; the set is the
current candidate set's `yhat` values, nonempty in use). -/
def yhatMin : List Rat → Rat
  | [] => 0
  | y :: ys => ys.foldl min y

/-- Maximum of a prediction set (head-seeded fold). -/
def yhatMax : List Rat → Rat
  | [] => 0
  | y :: ys => ys.foldl max y

/-- Modelled from the spec: min–max normalization of a `yhat` against
the current candidate set (§4.5) — `(yhat - min) / (max - min)` with
the degenerate all-equal range defined as 0.5; the YieldBlender code is
not in the tree. -/
def normalizeYhat (ys : List Rat) (y : Rat) : Rat :=
  if yhatMax ys = yhatMin ys then 0.5
  else (y - yhatMin ys) / (yhatMax ys - yhatMin ys)

/-- Modelled from the spec: the blended hybrid score (§4.5) —
`yield_weight × normalized + suitability_weight × suitability`. -/
def blendedScore (hw : HybridWeights) (normalized suitability : Rat) : Rat :=
  hw.yield_weight * normalized + hw.suitability_weight * suitability

/-- Modelled from the spec: the yield-model gateway boundary (§6) —
`isAvailable(crop)` and `predict(crop, climateFeatures)` returning
`(yhat, y_std)` or a typed unavailable result (`none`, which also
covers prediction errors and timeouts, treated identically per §5). -/
structure YieldGateway where
  isAvailable : String → Bool
  predict : String → List Rat → Option (Rat × Option Rat)

/-- Result of blending one candidate: `final_score`, nullable `yhat`
and `y_std`, and the `used_yield` boundary flag. -/
structure BlendResult where
  final_score : Rat
  yhat : Option Rat
  y_std : Option Rat
  used_yield : Bool
deriving DecidableEq, Repr

/-- Modelled from the spec: YieldBlender for one candidate (§4.5) —
when the gateway is unavailable for the crop or prediction fails, it
degrades gracefully to `final_score = suitability`, null `yhat`/`y_std`
and `used_yield = false`; it is a total function, so unavailability is
never fatal to the request.  `normSet` is the candidate set's `yhat`
values used for the set-relative normalization. -/
def blendCandidate (suitability : Rat) (crop : String) (climate : List Rat)
    (gw : YieldGateway) (normSet : List Rat) (hw : HybridWeights) : BlendResult :=
  if gw.isAvailable crop then
    match gw.predict crop climate with
    | some (yhat, ystd) =>
        { final_score := blendedScore hw (normalizeYhat normSet yhat) suitability,
          yhat := some yhat, y_std := ystd, used_yield := true }
    | none =>
        { final_score := suitability, yhat := none, y_std := none, used_yield := false }
  else
    { final_score := suitability, yhat := none, y_std := none, used_yield := false }

/-! ### Shared lemmas about the irrigation recommender -/

/-- Concrete dry-weather form used to instantiate universally quantified
theorems. -/
def sampleForm : IrrigationForm :=
  { state := "Karnataka", district := "Mysuru", year := 2024, crop := "RICE",
    soilPh := 6.5, soilTexture := .loam, organicCarbon := 0.6,
    soilMoisturePct := 40, temperatureC := 30, humidityPct := 50,
    rainTomorrowMm := 0, rainDayAfterMm := 0,
    powerKW := none, tariffPerKwh := none, hoursPerIrrigation := none }

/-- Wet variant of the sample form, landing in the wait branch. -/
def sampleWetForm : IrrigationForm :=
  { sampleForm with soilMoisturePct := 80 }

/-- Ranking order required by the spec: strictly larger score first, and
between equal scores the case-insensitively smaller method name first. -/
def rankedBefore (a b : RankedIrrigation) : Prop :=
  b.score < a.score ∨ (a.score = b.score ∧ a.method.toLower ≤ b.method.toLower)

/-- Concrete trait used to instantiate universally quantified theorems. -/
def sampleTrait : VarietyTrait :=
  { crop := "RICE", variety := "IR64", pH_min := 6, pH_max := 7,
    textures_allowed := ["clay", "clay_loam"], maturity_days := 120,
    zone_codes := ["E2"], heat_tol := true, flood_tol := true,
    drought_tol := false, notes := "" }

/-- Spec defaults for `TolerancesConfig`. -/
def defaultTolerances : TolerancesConfig :=
  { pH_falloff := 0.5, maturity_window := 60, zone_penalty := 0.5 }

/-- Spec defaults for `WeightsConfig` (README: pH 35%, texture 25%,
maturity 25%, zone 15%). -/
def defaultWeights : WeightsConfig :=
  { pH := 0.35, texture := 0.25, maturity := 0.25, zone := 0.15 }

/-- Gateway that is unavailable for every crop. -/
def offlineGateway : YieldGateway :=
  { isAvailable := fun _ => false, predict := fun _ _ => none }

/-- Weights of the C5 counterexample: each component lies in [0, 1] and
the sum is 1.0000009, within the 1e-6 tolerance of 1.0. -/
def nearOneWeights : WeightsConfig :=
  { pH := 0.25, texture := 0.25, maturity := 0.25, zone := 0.2500009 }

/-- Perfect sub-scores, all 1. -/
def perfectScores : SubScores :=
  { pH := 1, texture := 1, maturity := 1, zone := 1 }

lemma deficit_nonneg (f : IrrigationForm) : 0 ≤ deficit f :=
  div_nonneg (le_max_left _ _) (by norm_num)

lemma deficit_gt_of_lt70 (f : IrrigationForm) (h : f.soilMoisturePct < 70) :
    0.3 < deficit f := by
  unfold deficit
  rw [max_eq_right (by linarith : (0 : Rat) ≤ 100 - f.soilMoisturePct),
    lt_div_iff₀ (by norm_num : (0 : Rat) < 100)]
  linarith

/-- In the non-wait branch the drip score beats the surface score by at
least `0.03 + 0.1 * deficit` (unconditionally, in fact). -/
lemma drip_sub_surface_ge (f : IrrigationForm) :
    0.03 + 0.1 * deficit f ≤ dripScore f - surfaceScore f := by
  unfold dripScore surfaceScore
  cases f.soilTexture <;>
    simp only [textureAdj] <;>
    split_ifs <;>
    linarith [deficit_nonneg f]

lemma sprinkler_lt_drip (f : IrrigationForm) (h : f.soilMoisturePct < 70) :
    sprinklerScore f < dripScore f := by
  have hd := deficit_gt_of_lt70 f h
  unfold dripScore sprinklerScore
  cases f.soilTexture <;>
    simp only [textureAdj] <;>
    split_ifs <;>
    linarith

lemma surface_lt_sprinkler (f : IrrigationForm) :
    surfaceScore f < sprinklerScore f := by
  have hd := deficit_nonneg f
  unfold sprinklerScore surfaceScore
  cases f.soilTexture <;>
    simp only [textureAdj] <;>
    split_ifs <;>
    linarith

/-- Evaluation of the wait branch. -/
lemma wait_branch_eval (f : IrrigationForm)
    (h : f.soilMoisturePct ≥ 70 ∨ rainNext48 f ≥ 25) :
    computeIrrigationRanked f =
      [ { method := "Wait", score := 0.75,
          reason := some (if f.soilMoisturePct ≥ 70 then
            "Soil moisture is already adequate."
          else
            "Significant rainfall forecasted in next 48 hours."),
          est_water_mm := some 0, energy_kwh := some 0, cost_estimate := some 0 },
        { method := "Drip", score := 0.45,
          reason := some "If needed, apply minimal spot irrigation.",
          est_water_mm := none, energy_kwh := none, cost_estimate := none },
        { method := "Sprinkler", score := 0.40,
          reason := some "Hold unless conditions dry out further.",
          est_water_mm := none, energy_kwh := none, cost_estimate := none } ] := by
  rw [computeIrrigationRanked, if_pos h]

/-- Evaluation of the non-wait branch: since the three scores are
strictly ordered drip > sprinkler > surface, the stable sort returns
them in that order. -/
lemma nonwait_branch_eval (f : IrrigationForm)
    (h : ¬(f.soilMoisturePct ≥ 70 ∨ rainNext48 f ≥ 25)) :
    computeIrrigationRanked f =
      [ { method := "Drip", score := dripScore f,
          reason := some (methodReason "Drip"),
          est_water_mm := some (estWater f), energy_kwh := energyKwh f,
          cost_estimate := costEstimate f },
        { method := "Sprinkler", score := sprinklerScore f,
          reason := some (methodReason "Sprinkler"),
          est_water_mm := some (estWater f), energy_kwh := energyKwh f,
          cost_estimate := costEstimate f },
        { method := "Surface", score := surfaceScore f,
          reason := some (methodReason "Surface"),
          est_water_mm := some (estWater f), energy_kwh := energyKwh f,
          cost_estimate := costEstimate f } ] := by
  have hm : f.soilMoisturePct < 70 := by
    push_neg at h; exact h.1
  have h1 : sprinklerScore f < dripScore f := sprinkler_lt_drip f hm
  have h2 : surfaceScore f < sprinklerScore f := surface_lt_sprinkler f
  rw [computeIrrigationRanked, if_neg h]
  simp only [List.map, sortDesc, insertDesc]
  rw [if_pos (by exact h2.le)]
  simp only [insertDesc]
  rw [if_pos (by exact h1.le)]
  simp only [List.map]

/-! ### Claim theorems -/

/-- C1: `computeIrrigationRanked` — the only ranking function in the
tree — is deterministic: two applications to identical `IrrigationForm`
values yield equal ranked lists (it is a pure function of the form; the
source performs no IO and consults no state inside the function). -/
theorem computeIrrigationRanked_deterministic (f g : IrrigationForm)
    (h : f = g) :
    computeIrrigationRanked f = computeIrrigationRanked g := by
  rw [h]

theorem computeIrrigationRanked_deterministic_witness :
    sampleForm = sampleForm ∧
      computeIrrigationRanked sampleForm = computeIrrigationRanked sampleForm :=
  ⟨rfl, computeIrrigationRanked_deterministic sampleForm sampleForm rfl⟩

/-- C9: whenever `soilMoisturePct ≥ 70` or the 48-hour forecast sum is
at least 25 mm, the ranked list is exactly the fixed wait-branch list:
"Wait" first with score 0.75 and zero water/energy/cost estimates,
then "Drip" (0.45) and "Sprinkler" (0.40) — independent of every other
form field (only the reason string of the first entry varies between
the two trigger conditions). -/
theorem wait_branch_output (f : IrrigationForm)
    (h : f.soilMoisturePct ≥ 70 ∨ rainNext48 f ≥ 25) :
    ∃ waitReason : String,
      computeIrrigationRanked f =
        [ { method := "Wait", score := 0.75, reason := some waitReason,
            est_water_mm := some 0, energy_kwh := some 0, cost_estimate := some 0 },
          { method := "Drip", score := 0.45,
            reason := some "If needed, apply minimal spot irrigation.",
            est_water_mm := none, energy_kwh := none, cost_estimate := none },
          { method := "Sprinkler", score := 0.40,
            reason := some "Hold unless conditions dry out further.",
            est_water_mm := none, energy_kwh := none, cost_estimate := none } ] :=
  ⟨_, wait_branch_eval f h⟩

theorem wait_branch_output_witness :
    (sampleWetForm.soilMoisturePct ≥ 70 ∨ rainNext48 sampleWetForm ≥ 25) ∧
    ∃ waitReason : String,
      computeIrrigationRanked sampleWetForm =
        [ { method := "Wait", score := 0.75, reason := some waitReason,
            est_water_mm := some 0, energy_kwh := some 0, cost_estimate := some 0 },
          { method := "Drip", score := 0.45,
            reason := some "If needed, apply minimal spot irrigation.",
            est_water_mm := none, energy_kwh := none, cost_estimate := none },
          { method := "Sprinkler", score := 0.40,
            reason := some "Hold unless conditions dry out further.",
            est_water_mm := none, energy_kwh := none, cost_estimate := none } ] :=
  ⟨Or.inl (by norm_num [sampleWetForm, sampleForm]),
    wait_branch_output sampleWetForm
      (Or.inl (by norm_num [sampleWetForm, sampleForm]))⟩

/-- C10: outside the wait branch the drip score exceeds the surface
score by at least `0.03 + 0.10 * deficit`, which is strictly positive,
and consequently the returned method order is exactly
Drip, Sprinkler, Surface — "Drip" is always ranked above "Surface". -/
theorem drip_dominates_surface (f : IrrigationForm)
    (hm : f.soilMoisturePct < 70) (hr : rainNext48 f < 25) :
    0.03 + 0.1 * deficit f ≤ dripScore f - surfaceScore f ∧
    0 < 0.03 + 0.1 * deficit f ∧
    (computeIrrigationRanked f).map (fun r => r.method) =
      ["Drip", "Sprinkler", "Surface"] := by
  have h : ¬(f.soilMoisturePct ≥ 70 ∨ rainNext48 f ≥ 25) := by
    push_neg
    exact ⟨hm, hr⟩
  refine ⟨drip_sub_surface_ge f, ?_, ?_⟩
  · have := deficit_nonneg f
    linarith
  · rw [nonwait_branch_eval f h]
    simp

theorem drip_dominates_surface_witness :
    (sampleForm.soilMoisturePct < 70 ∧ rainNext48 sampleForm < 25) ∧
    (0.03 + 0.1 * deficit sampleForm ≤ dripScore sampleForm - surfaceScore sampleForm ∧
      0 < 0.03 + 0.1 * deficit sampleForm ∧
      (computeIrrigationRanked sampleForm).map (fun r => r.method) =
        ["Drip", "Sprinkler", "Surface"]) :=
  ⟨⟨by norm_num [sampleForm], by norm_num [rainNext48, sampleForm]⟩,
    drip_dominates_surface sampleForm (by norm_num [sampleForm])
      (by norm_num [rainNext48, sampleForm])⟩

/-- C2: every ranked list the implemented ranking code returns is
ordered by `rankedBefore`: strictly descending score, and any two
entries with identical score in ascending case-insensitive
lexicographic method-name order (on the code's candidate lists the
scores turn out pairwise distinct, so the alphabetical tie-break is
satisfied for every pair with equal scores, whatever the sort does
with them). -/
theorem ranking_sorted_with_alphabetical_ties (f : IrrigationForm) :
    (computeIrrigationRanked f).Pairwise rankedBefore := by
  by_cases h : f.soilMoisturePct ≥ 70 ∨ rainNext48 f ≥ 25
  · rw [wait_branch_eval f h]
    refine List.Pairwise.cons ?_ (List.Pairwise.cons ?_
      (List.Pairwise.cons ?_ List.Pairwise.nil))
    · intro b hb
      simp only [List.mem_cons, List.mem_singleton, List.not_mem_nil,
        or_false] at hb
      rcases hb with rfl | rfl <;> exact Or.inl (by norm_num)
    · intro b hb
      simp only [List.mem_singleton] at hb
      subst hb
      exact Or.inl (by norm_num)
    · intro b hb
      exact absurd hb (List.not_mem_nil b)
  · have hm : f.soilMoisturePct < 70 := by
      push_neg at h
      exact h.1
    have h1 : sprinklerScore f < dripScore f := sprinkler_lt_drip f hm
    have h2 : surfaceScore f < sprinklerScore f := surface_lt_sprinkler f
    rw [nonwait_branch_eval f h]
    refine List.Pairwise.cons ?_ (List.Pairwise.cons ?_
      (List.Pairwise.cons ?_ List.Pairwise.nil))
    · intro b hb
      simp only [List.mem_cons, List.mem_singleton, List.not_mem_nil,
        or_false] at hb
      rcases hb with rfl | rfl
      · exact Or.inl h1
      · exact Or.inl (h2.trans h1)
    · intro b hb
      simp only [List.mem_singleton] at hb
      subst hb
      exact Or.inl h2
    · intro b hb
      exact absurd hb (List.not_mem_nil b)

/-! ### pH sub-score lemmas (spec-modelled ComponentScorer) -/

lemma phDist_nonneg (t : VarietyTrait) (ph : Rat) : 0 ≤ phDist t ph :=
  le_max_left _ _

/-- The pH score is `max 0 (1 - d / falloff)` with `d` the distance to
the nearest boundary (0 inside the range). -/
lemma phScore_eq_dist (t : VarietyTrait) (ph : Rat) (tol : TolerancesConfig)
    (hrange : t.pH_min ≤ t.pH_max) (hf : 0 < tol.pH_falloff) :
    phScore t ph tol = max 0 (1 - phDist t ph / tol.pH_falloff) := by
  unfold phScore phDist
  split_ifs with h1 h2
  · have hle : max (t.pH_min - ph) (ph - t.pH_max) ≤ 0 :=
      max_le (by linarith [h1.1]) (by linarith [h1.2])
    rw [max_eq_left hle]
    norm_num
  · have hle : ph - t.pH_max ≤ t.pH_min - ph := by linarith
    rw [max_eq_left hle,
      max_eq_right (by linarith : (0 : Rat) ≤ t.pH_min - ph)]
  · have hge : t.pH_min ≤ ph := le_of_not_lt h2
    have hgt : t.pH_max < ph := by
      by_contra hc
      push_neg at hc
      exact h1 ⟨hge, hc⟩
    rw [max_eq_right (by linarith : t.pH_min - ph ≤ ph - t.pH_max),
      max_eq_right (by linarith : (0 : Rat) ≤ ph - t.pH_max)]

/-- C3: for a trait with `pH_min ≤ pH_max` and a positive falloff, the
pH sub-score is 1 inside the range, `max 0 (1 - d / pH_falloff)` with
`d` the distance to the nearest boundary outside it, always lies in
[0, 1], is non-increasing in that distance, and is exactly 0 once the
distance reaches `pH_falloff`. -/
theorem phScore_spec (t : VarietyTrait) (ph : Rat) (tol : TolerancesConfig)
    (hrange : t.pH_min ≤ t.pH_max) (hf : 0 < tol.pH_falloff) :
    (t.pH_min ≤ ph ∧ ph ≤ t.pH_max → phScore t ph tol = 1) ∧
    (¬(t.pH_min ≤ ph ∧ ph ≤ t.pH_max) →
      phScore t ph tol = max 0 (1 - phDist t ph / tol.pH_falloff)) ∧
    0 ≤ phScore t ph tol ∧ phScore t ph tol ≤ 1 ∧
    (∀ ph₂, phDist t ph ≤ phDist t ph₂ →
      phScore t ph₂ tol ≤ phScore t ph tol) ∧
    (tol.pH_falloff ≤ phDist t ph → phScore t ph tol = 0) := by
  refine ⟨?_, ?_, ?_, ?_, ?_, ?_⟩
  · intro h
    unfold phScore
    rw [if_pos h]
  · intro _
    exact phScore_eq_dist t ph tol hrange hf
  · rw [phScore_eq_dist t ph tol hrange hf]
    exact le_max_left _ _
  · rw [phScore_eq_dist t ph tol hrange hf]
    refine max_le (by norm_num) ?_
    have hd : 0 ≤ phDist t ph / tol.pH_falloff :=
      div_nonneg (phDist_nonneg t ph) hf.le
    linarith
  · intro ph₂ hle
    rw [phScore_eq_dist t ph tol hrange hf, phScore_eq_dist t ph₂ tol hrange hf]
    have hdiv : phDist t ph / tol.pH_falloff ≤ phDist t ph₂ / tol.pH_falloff := by
      gcongr
    exact max_le_max le_rfl (by linarith)
  · intro hd
    rw [phScore_eq_dist t ph tol hrange hf]
    have h1 : (1 : Rat) ≤ phDist t ph / tol.pH_falloff :=
      (one_le_div hf).mpr hd
    exact max_eq_left (by linarith)

theorem phScore_spec_witness :
    (sampleTrait.pH_min ≤ sampleTrait.pH_max ∧
      0 < defaultTolerances.pH_falloff) ∧
    ((sampleTrait.pH_min ≤ 7.2 ∧ (7.2 : Rat) ≤ sampleTrait.pH_max →
        phScore sampleTrait 7.2 defaultTolerances = 1) ∧
      (¬(sampleTrait.pH_min ≤ 7.2 ∧ (7.2 : Rat) ≤ sampleTrait.pH_max) →
        phScore sampleTrait 7.2 defaultTolerances =
          max 0 (1 - phDist sampleTrait 7.2 / defaultTolerances.pH_falloff)) ∧
      0 ≤ phScore sampleTrait 7.2 defaultTolerances ∧
      phScore sampleTrait 7.2 defaultTolerances ≤ 1 ∧
      (∀ ph₂, phDist sampleTrait 7.2 ≤ phDist sampleTrait ph₂ →
        phScore sampleTrait ph₂ defaultTolerances ≤
          phScore sampleTrait 7.2 defaultTolerances) ∧
      (defaultTolerances.pH_falloff ≤ phDist sampleTrait 7.2 →
        phScore sampleTrait 7.2 defaultTolerances = 0)) :=
  ⟨⟨by norm_num [sampleTrait], by norm_num [defaultTolerances]⟩,
    phScore_spec sampleTrait 7.2 defaultTolerances
      (by norm_num [sampleTrait]) (by norm_num [defaultTolerances])⟩

/-- C4: the risk multipliers are 1.0 for an inactive flag, 1.05 for an
active flag with a tolerant trait, 0.95 for an active flag with a
non-tolerant trait, and never take a value outside {0.95, 1.0, 1.05};
the adjusted suitability is the suitability times the three multipliers,
clamped to [0, 1]. -/
theorem riskAdjuster_spec :
    (∀ tolerant : Bool, riskMultiplier false tolerant = 1) ∧
    riskMultiplier true true = 1.05 ∧
    riskMultiplier true false = 0.95 ∧
    (∀ flag tolerant, riskMultiplier flag tolerant = 0.95 ∨
      riskMultiplier flag tolerant = 1 ∨ riskMultiplier flag tolerant = 1.05) ∧
    (∀ (s : Rat) (t : VarietyTrait) (r : RiskFlags),
      adjustRisk s t r =
        min 1 (max 0 (s * riskMultiplier r.heat t.heat_tol
          * riskMultiplier r.flood t.flood_tol
          * riskMultiplier r.drought t.drought_tol)) ∧
      0 ≤ adjustRisk s t r ∧ adjustRisk s t r ≤ 1) := by
  refine ⟨fun _ => rfl, rfl, rfl, ?_, ?_⟩
  · intro flag tolerant
    cases flag
    · exact Or.inr (Or.inl rfl)
    · cases tolerant
      · exact Or.inl rfl
      · exact Or.inr (Or.inr rfl)
  · intro s t r
    refine ⟨rfl, ?_, ?_⟩
    · exact le_min (by norm_num) (le_max_left _ _)
    · exact min_le_left _ _

/-- C5 counterexample: `nearOneWeights` has all components in [0, 1]
and sums to 1.0 within 1e-6, all four sub-scores equal to 1 lie in
[0, 1], yet the weighted sum is 1.0000009 > 1 — so the claimed
invariant `rawSuitability ∈ [0, 1]` fails. -/
theorem rawSuitability_above_one :
    (0 ≤ nearOneWeights.pH ∧ nearOneWeights.pH ≤ 1) ∧
    (0 ≤ nearOneWeights.texture ∧ nearOneWeights.texture ≤ 1) ∧
    (0 ≤ nearOneWeights.maturity ∧ nearOneWeights.maturity ≤ 1) ∧
    (0 ≤ nearOneWeights.zone ∧ nearOneWeights.zone ≤ 1) ∧
    |weightsSum nearOneWeights - 1| ≤ 1e-6 ∧
    (0 ≤ perfectScores.pH ∧ perfectScores.pH ≤ 1) ∧
    (0 ≤ perfectScores.texture ∧ perfectScores.texture ≤ 1) ∧
    (0 ≤ perfectScores.maturity ∧ perfectScores.maturity ≤ 1) ∧
    (0 ≤ perfectScores.zone ∧ perfectScores.zone ≤ 1) ∧
    ¬ rawSuitability nearOneWeights perfectScores ≤ 1 := by
  refine ⟨⟨by norm_num [nearOneWeights], by norm_num [nearOneWeights]⟩,
    ⟨by norm_num [nearOneWeights], by norm_num [nearOneWeights]⟩,
    ⟨by norm_num [nearOneWeights], by norm_num [nearOneWeights]⟩,
    ⟨by norm_num [nearOneWeights], by norm_num [nearOneWeights]⟩,
    ?_,
    ⟨by norm_num [perfectScores], by norm_num [perfectScores]⟩,
    ⟨by norm_num [perfectScores], by norm_num [perfectScores]⟩,
    ⟨by norm_num [perfectScores], by norm_num [perfectScores]⟩,
    ⟨by norm_num [perfectScores], by norm_num [perfectScores]⟩,
    ?_⟩
  · rw [abs_le]
    constructor <;> norm_num [weightsSum, nearOneWeights]
  · norm_num [rawSuitability, nearOneWeights, perfectScores]

/-- C5 amended: with components in [0, 1], sum within 1e-6 of 1 and
sub-scores in [0, 1], the weighted sum lies in [0, 1 + 1e-6] (the
tolerance on the weight sum propagates to the upper bound; the original
[0, 1] bound holds when the weights sum to exactly 1). -/
theorem rawSuitability_range (w : WeightsConfig) (s : SubScores)
    (hw1 : 0 ≤ w.pH) (hw1' : w.pH ≤ 1)
    (hw2 : 0 ≤ w.texture) (hw2' : w.texture ≤ 1)
    (hw3 : 0 ≤ w.maturity) (hw3' : w.maturity ≤ 1)
    (hw4 : 0 ≤ w.zone) (hw4' : w.zone ≤ 1)
    (hsum : |weightsSum w - 1| ≤ 1e-6)
    (hs1 : 0 ≤ s.pH) (hs1' : s.pH ≤ 1)
    (hs2 : 0 ≤ s.texture) (hs2' : s.texture ≤ 1)
    (hs3 : 0 ≤ s.maturity) (hs3' : s.maturity ≤ 1)
    (hs4 : 0 ≤ s.zone) (hs4' : s.zone ≤ 1) :
    0 ≤ rawSuitability w s ∧ rawSuitability w s ≤ 1 + 1e-6 := by
  obtain ⟨hlo, hhi⟩ := abs_le.mp hsum
  unfold weightsSum at hlo hhi
  unfold rawSuitability
  constructor
  · have p1 := mul_nonneg hw1 hs1
    have p2 := mul_nonneg hw2 hs2
    have p3 := mul_nonneg hw3 hs3
    have p4 := mul_nonneg hw4 hs4
    linarith
  · have q1 : w.pH * s.pH ≤ w.pH := mul_le_of_le_one_right hw1 hs1'
    have q2 : w.texture * s.texture ≤ w.texture :=
      mul_le_of_le_one_right hw2 hs2'
    have q3 : w.maturity * s.maturity ≤ w.maturity :=
      mul_le_of_le_one_right hw3 hs3'
    have q4 : w.zone * s.zone ≤ w.zone := mul_le_of_le_one_right hw4 hs4'
    linarith

theorem rawSuitability_range_witness :
    0 ≤ rawSuitability defaultWeights perfectScores ∧
      rawSuitability defaultWeights perfectScores ≤ 1 + 1e-6 :=
  rawSuitability_range defaultWeights perfectScores
    (by norm_num [defaultWeights]) (by norm_num [defaultWeights])
    (by norm_num [defaultWeights]) (by norm_num [defaultWeights])
    (by norm_num [defaultWeights]) (by norm_num [defaultWeights])
    (by norm_num [defaultWeights]) (by norm_num [defaultWeights])
    (by rw [abs_le]; constructor <;> norm_num [weightsSum, defaultWeights])
    (by norm_num [perfectScores]) (by norm_num [perfectScores])
    (by norm_num [perfectScores]) (by norm_num [perfectScores])
    (by norm_num [perfectScores]) (by norm_num [perfectScores])
    (by norm_num [perfectScores]) (by norm_num [perfectScores])

/-! ### Yield blender lemmas -/

lemma foldl_min_le_init (l : List Rat) (a : Rat) : l.foldl min a ≤ a := by
  induction l generalizing a with
  | nil => exact le_refl a
  | cons b t ih => exact le_trans (ih (min a b)) (min_le_left a b)

lemma foldl_min_le_mem (l : List Rat) : ∀ a y : Rat, y ∈ l → l.foldl min a ≤ y := by
  induction l with
  | nil =>
    intro _ y h
    exact absurd h (List.not_mem_nil y)
  | cons b t ih =>
    intro a y h
    rcases List.mem_cons.mp h with rfl | h2
    · exact le_trans (foldl_min_le_init t (min a y)) (min_le_right a y)
    · exact ih (min a b) y h2

lemma init_le_foldl_max (l : List Rat) (a : Rat) : a ≤ l.foldl max a := by
  induction l generalizing a with
  | nil => exact le_refl a
  | cons b t ih => exact le_trans (le_max_left a b) (ih (max a b))

lemma mem_le_foldl_max (l : List Rat) : ∀ a y : Rat, y ∈ l → y ≤ l.foldl max a := by
  induction l with
  | nil =>
    intro _ y h
    exact absurd h (List.not_mem_nil y)
  | cons b t ih =>
    intro a y h
    rcases List.mem_cons.mp h with rfl | h2
    · exact le_trans (le_max_right a y) (init_le_foldl_max t (max a y))
    · exact ih (max a b) y h2

lemma yhatMin_le_mem (ys : List Rat) (y : Rat) (h : y ∈ ys) :
    yhatMin ys ≤ y := by
  cases ys with
  | nil => exact absurd h (List.not_mem_nil y)
  | cons a t =>
    rcases List.mem_cons.mp h with rfl | h2
    · exact foldl_min_le_init t y
    · exact foldl_min_le_mem t a y h2

lemma mem_le_yhatMax (ys : List Rat) (y : Rat) (h : y ∈ ys) :
    y ≤ yhatMax ys := by
  cases ys with
  | nil => exact absurd h (List.not_mem_nil y)
  | cons a t =>
    rcases List.mem_cons.mp h with rfl | h2
    · exact init_le_foldl_max t y
    · exact mem_le_foldl_max t a y h2

/-- C8: for a `yhat` belonging to the candidate set, the min–max
normalized value lies in [0, 1]; it is 0.5 exactly in the degenerate
all-equal case and `(yhat - min) / (max - min)` otherwise; and the
blended score with the default hybrid weights is
`0.6 * normalized + 0.4 * suitability`. -/
theorem normalizeYhat_spec (ys : List Rat) (y : Rat) (h : y ∈ ys) :
    0 ≤ normalizeYhat ys y ∧ normalizeYhat ys y ≤ 1 ∧
    (yhatMax ys = yhatMin ys → normalizeYhat ys y = 0.5) ∧
    (yhatMax ys ≠ yhatMin ys →
      normalizeYhat ys y = (y - yhatMin ys) / (yhatMax ys - yhatMin ys)) ∧
    (∀ normalized suitability : Rat,
      blendedScore defaultHybridWeights normalized suitability =
        0.6 * normalized + 0.4 * suitability) := by
  have hmin := yhatMin_le_mem ys y h
  have hmax := mem_le_yhatMax ys y h
  refine ⟨?_, ?_, ?_, ?_, ?_⟩
  · unfold normalizeYhat
    split_ifs with hd
    · norm_num
    · have hlt : yhatMin ys < yhatMax ys :=
        lt_of_le_of_ne (hmin.trans hmax) (Ne.symm hd)
      exact div_nonneg (by linarith) (by linarith)
  · unfold normalizeYhat
    split_ifs with hd
    · norm_num
    · have hlt : yhatMin ys < yhatMax ys :=
        lt_of_le_of_ne (hmin.trans hmax) (Ne.symm hd)
      rw [div_le_one (by linarith)]
      linarith
  · intro hd
    unfold normalizeYhat
    rw [if_pos hd]
  · intro hd
    unfold normalizeYhat
    rw [if_neg hd]
  · intro normalized suitability
    rfl

theorem normalizeYhat_spec_witness :
    ((2 : Rat) ∈ [(2 : Rat), 4]) ∧
    (0 ≤ normalizeYhat [2, 4] 2 ∧ normalizeYhat [2, 4] 2 ≤ 1 ∧
      (yhatMax [2, 4] = yhatMin [2, 4] → normalizeYhat [2, 4] 2 = 0.5) ∧
      (yhatMax [2, 4] ≠ yhatMin [2, 4] →
        normalizeYhat [2, 4] 2 =
          ((2 : Rat) - yhatMin [2, 4]) / (yhatMax [2, 4] - yhatMin [2, 4])) ∧
      (∀ normalized suitability : Rat,
        blendedScore defaultHybridWeights normalized suitability =
          0.6 * normalized + 0.4 * suitability)) :=
  ⟨by simp, normalizeYhat_spec [2, 4] 2 (by simp)⟩

/-- C6: when the yield gateway is unavailable for the crop — or its
prediction fails — the blender degrades gracefully: `final_score`
equals `suitability` exactly, `yhat` and `y_std` are both null, and
`used_yield = false`; `blendCandidate` is a total function, so the
degradation is never fatal to the request. -/
theorem blend_fallback (suitability : Rat) (crop : String)
    (climate : List Rat) (gw : YieldGateway) (normSet : List Rat)
    (hw : HybridWeights)
    (h : gw.isAvailable crop = false ∨ gw.predict crop climate = none) :
    blendCandidate suitability crop climate gw normSet hw =
      { final_score := suitability, yhat := none, y_std := none,
        used_yield := false } := by
  rcases h with h | h
  · simp [blendCandidate, h]
  · by_cases ha : gw.isAvailable crop = true
    · simp [blendCandidate, ha, h]
    · simp [blendCandidate, ha]

theorem blend_fallback_witness :
    (offlineGateway.isAvailable "RICE" = false ∨
      offlineGateway.predict "RICE" [] = none) ∧
    blendCandidate 0.8 "RICE" [] offlineGateway [] defaultHybridWeights =
      { final_score := 0.8, yhat := none, y_std := none,
        used_yield := false } :=
  ⟨Or.inl rfl,
    blend_fallback 0.8 "RICE" [] offlineGateway [] defaultHybridWeights
      (Or.inl rfl)⟩

/-- C7: a weights configuration (and likewise a hybrid-weights
configuration) whose components do not sum to 1.0 within 1e-6 is
rejected with a `ConfigError`; valid configurations are returned
unchanged (never renormalized); in particular
`{pH: 0.4, texture: 0.3, maturity: 0.15, zone: 0.2}` (sum 1.05) is
rejected. -/
theorem validateWeights_spec (w : WeightsConfig) (hw : HybridWeights)
    (h1 : ¬ |weightsSum w - 1| ≤ 1e-6)
    (h2 : ¬ |hw.yield_weight + hw.suitability_weight - 1| ≤ 1e-6) :
    validateWeights w = .error (.weightsSumNotOne (weightsSum w)) ∧
    validateHybridWeights hw =
      .error (.weightsSumNotOne (hw.yield_weight + hw.suitability_weight)) ∧
    (∀ v r, validateWeights v = .ok r → r = v) ∧
    (∀ v r, validateHybridWeights v = .ok r → r = v) ∧
    validateWeights
        { pH := 0.4, texture := 0.3, maturity := 0.15, zone := 0.2 } =
      .error (.weightsSumNotOne
        (weightsSum { pH := 0.4, texture := 0.3, maturity := 0.15, zone := 0.2 })) := by
  refine ⟨?_, ?_, ?_, ?_, ?_⟩
  · unfold validateWeights
    rw [if_neg h1]
  · unfold validateHybridWeights
    rw [if_neg h2]
  · intro v r hok
    unfold validateWeights at hok
    split_ifs at hok
    injection hok with hvr
    exact hvr.symm
  · intro v r hok
    unfold validateHybridWeights at hok
    split_ifs at hok
    injection hok with hvr
    exact hvr.symm
  · have hbad : ¬ |weightsSum
        { pH := 0.4, texture := 0.3, maturity := 0.15, zone := 0.2 } - 1| ≤ 1e-6 := by
      rw [abs_le]
      norm_num [weightsSum]
    unfold validateWeights
    rw [if_neg hbad]

theorem validateWeights_spec_witness :
    (¬ |weightsSum { pH := 0.4, texture := 0.3, maturity := 0.15, zone := 0.2 } - 1| ≤ 1e-6 ∧
      ¬ |(0.7 : Rat) + 0.4 - 1| ≤ 1e-6) ∧
    validateWeights { pH := 0.4, texture := 0.3, maturity := 0.15, zone := 0.2 } =
      .error (.weightsSumNotOne
        (weightsSum { pH := 0.4, texture := 0.3, maturity := 0.15, zone := 0.2 })) :=
  ⟨⟨by rw [abs_le]; norm_num [weightsSum], by rw [abs_le]; norm_num⟩,
    (validateWeights_spec
      { pH := 0.4, texture := 0.3, maturity := 0.15, zone := 0.2 }
      { yield_weight := 0.7, suitability_weight := 0.4 }
      (by rw [abs_le]; norm_num [weightsSum])
      (by rw [abs_le]; norm_num)).1⟩

end KrishiMitra
